import Mathlib

/-!
Verification development for the ocean-sentinel image-based severity scoring
engine.  The definitions below are a shallow embedding of the two detector
variants of the repository: the pixel-heuristic detector (`PlasticDetector`)
and the external-fusion detector (`AdvancedPlasticDetector.combineResults`).
JavaScript numbers are modelled by exact rationals; the float constants 0.8
and 1.2 appearing in integer comparisons are rendered by the exact integer
forms (r > 0.8*max ⟺ 5r > 4max, g > 1.2r ⟺ 5g > 6r), which agree with the
IEEE-754 evaluation on the 0..255 channel range.
-/

namespace OceanSentinel

/-- An RGB pixel sample; channels are naturals (0–255 in the source). -/
structure Pixel where
  r : ℕ
  g : ℕ
  b : ℕ
deriving DecidableEq

/-- `Math.max(r, g, b)` in `analyzeColorDistribution`. -/
def pmax (p : Pixel) : ℕ := max p.r (max p.g p.b)

/-- `Math.min(r, g, b)` in `analyzeColorDistribution`. -/
def pmin (p : Pixel) : ℕ := min p.r (min p.g p.b)

/-- `diff = max - min` in `analyzeColorDistribution`. -/
def pdiff (p : Pixel) : ℕ := pmax p - pmin p

/-- The ten mutually exclusive primary color buckets of
`analyzeColorDistribution` (the `greenBlue` secondary flag is kept apart). -/
inductive ColorCat
  | darkBlue | mediumBlue | lightBlue | brightBlue
  | white | gray | red | yellow | green | brown
deriving DecidableEq

/-- The per-pixel if/else chain of `PlasticDetector.analyzeColorDistribution`:
the first matching branch wins, a pixel may match no branch at all. -/
def classifyPixel (p : Pixel) : Option ColorCat :=
  if p.r < p.b ∧ p.g < p.b then
    if p.b < 100 ∧ pdiff p < 50 then some .darkBlue
    else if p.b < 160 ∧ pdiff p < 70 then some .mediumBlue
    else if p.b < 200 ∧ pdiff p < 90 then some .lightBlue
    else if 100 < pdiff p then some .brightBlue
    else none
  else if 200 < p.r ∧ 200 < p.g ∧ 200 < p.b then some .white
  else if pdiff p < 30 then some .gray
  else if 4 * pmax p < 5 * p.r then some .red
  else if 4 * pmax p < 5 * p.g ∧ p.b < p.r then some .yellow
  else if 4 * pmax p < 5 * p.g then some .green
  else if 100 < p.r ∧ 70 < p.g ∧ p.b < 100 then some .brown
  else none

/-- The independent `greenBlue` increment: inside the blue-dominant branch,
`if (g > r * 1.2) counts.greenBlue++` fires regardless of which (if any)
water bucket the pixel fell in. -/
def isGreenBlue (p : Pixel) : Bool :=
  decide ((p.r < p.b ∧ p.g < p.b) ∧ 6 * p.r < 5 * p.g)

/-- The `counts` record built by `analyzeColorDistribution`. -/
structure Counts where
  darkBlue : ℕ
  mediumBlue : ℕ
  lightBlue : ℕ
  greenBlue : ℕ
  white : ℕ
  brightBlue : ℕ
  red : ℕ
  yellow : ℕ
  green : ℕ
  gray : ℕ
  brown : ℕ
  total : ℕ
deriving DecidableEq

/-- Number of pixels of `ps` landing in primary bucket `c`. -/
def catCount (ps : List Pixel) (c : ColorCat) : ℕ :=
  (ps.filter fun p => decide (classifyPixel p = some c)).length

/-- `PlasticDetector.analyzeColorDistribution`: one counter per bucket,
`total` is the number of samples (`pixels.length / 4` in the source). -/
def analyzeColorDistribution (ps : List Pixel) : Counts where
  darkBlue := catCount ps .darkBlue
  mediumBlue := catCount ps .mediumBlue
  lightBlue := catCount ps .lightBlue
  greenBlue := (ps.filter isGreenBlue).length
  white := catCount ps .white
  brightBlue := catCount ps .brightBlue
  red := catCount ps .red
  yellow := catCount ps .yellow
  green := catCount ps .green
  gray := catCount ps .gray
  brown := catCount ps .brown
  total := ps.length

/-- `PlasticDetector.calculateWaterScore`. -/
def calculateWaterScore (c : Counts) : ℚ :=
  let waterBlueR : ℚ := ((c.darkBlue : ℚ) + c.mediumBlue + c.lightBlue + c.greenBlue) / c.total
  let naturalR : ℚ := ((c.gray : ℚ) * (1/2)) / c.total
  min 1 (waterBlueR + naturalR * (3/10))

/-- Return record of `PlasticDetector.detectPlasticIndicators`. -/
structure PlasticIndicators where
  score : ℚ
  bottleColors : ℚ
  bagColors : ℚ
  artificialColors : ℚ
deriving DecidableEq

/-- `PlasticDetector.detectPlasticIndicators`. -/
def detectPlasticIndicators (c : Counts) : PlasticIndicators :=
  let whiteR : ℚ := (c.white : ℚ) / c.total
  let brightBlueR : ℚ := (c.brightBlue : ℚ) / c.total
  let artificialR : ℚ := ((c.red : ℚ) + c.yellow) / c.total
  let s1 : ℚ := if 1/100 < whiteR ∧ whiteR < 3/10 then whiteR * 2 else 0
  let s2 : ℚ := if 1/200 < brightBlueR ∧ brightBlueR < 1/5 then brightBlueR * 3 else 0
  let s3 : ℚ := if 1/100 < artificialR then artificialR * 4 else 0
  { score := min 1 (s1 + s2 + s3)
    bottleColors := brightBlueR
    bagColors := whiteR
    artificialColors := artificialR }

/-- Return record of `PlasticDetector.detectUnnaturalColors` (the source field
names `unnaturalRatio` and `brownRatio` are shortened). -/
structure UnnaturalColors where
  score : ℚ
  unnaturalR : ℚ
  brightArtificial : ℚ
  brownR : ℚ
deriving DecidableEq

/-- `PlasticDetector.detectUnnaturalColors`. -/
def detectUnnaturalColors (c : Counts) : UnnaturalColors :=
  let unnatR : ℚ := ((c.red : ℚ) + c.yellow + c.brightBlue) / c.total
  let brightArt : ℚ := (c.white : ℚ) / c.total
  let brownR : ℚ := (c.brown : ℚ) / c.total
  let s1 : ℚ := if 1/50 < unnatR then unnatR * 2 else 0
  let s2 : ℚ := if 1/20 < brightArt ∧ brightArt < 2/5 then brightArt else 0
  let s3 : ℚ := if 1/10 < brownR then brownR * (1/2) else 0
  { score := min 1 (s1 + s2 + s3)
    unnaturalR := unnatR
    brightArtificial := brightArt
    brownR := brownR }

/-- Severity tiers of the verdict. -/
inductive Severity
  | low | medium | high
deriving DecidableEq

/-- The `DetectionResult` record shared by both detector variants. -/
structure DetectionResult where
  severity : Severity
  confidence : ℚ
  objects : List String
  plasticScore : ℚ
deriving DecidableEq

/-- The threshold chain of `PlasticDetector.analyzeImage`:
`< 0.25` low, `< 0.6` medium, otherwise high. -/
def classifySeverity (s : ℚ) : Severity :=
  if s < 1/4 then .low else if s < 3/5 then .medium else .high

/-- The scoring core of `PlasticDetector.analyzeImage` on a decoded pixel
grid; `u` stands for the `Math.random()` draw feeding the confidence jitter. -/
def analyzeImage (ps : List Pixel) (u : ℚ) : DetectionResult :=
  let colorCounts := analyzeColorDistribution ps
  let waterScore := calculateWaterScore colorCounts
  let plasticIndicators := detectPlasticIndicators colorCounts
  let unnaturalColors := detectUnnaturalColors colorCounts
  let base : ℚ := if 3/5 < waterScore then 1/10 else 3/10
  let raw : ℚ := base + plasticIndicators.score * (2/5) + unnaturalColors.score * (3/10)
  let plasticScore : ℚ := max 0 (min 1 raw)
  let severity : Severity := classifySeverity plasticScore
  let confidence : ℚ :=
    if plasticScore < 1/4 then 17/20 + u * (1/10)
    else if plasticScore < 3/5 then 3/4 + u * (3/20)
    else 4/5 + u * (3/20)
  let objects : List String :=
    (if 1/50 < plasticIndicators.bottleColors then ["possible bottles"] else []) ++
    (if 1/50 < plasticIndicators.bagColors then ["possible bags"] else []) ++
    (if 1/20 < unnaturalColors.brightArtificial then ["artificial debris"] else [])
  { severity := severity, confidence := confidence, objects := objects, plasticScore := plasticScore }

/-! ## External-fusion detector (`AdvancedPlasticDetector`) -/

/-- One entry of `labelAnnotations` in a Google Vision response
(field `description`/`score` in the source). -/
structure LabelAnn where
  description : String
  score : ℚ
deriving DecidableEq

/-- One entry of `objectAnnotations` in a Google Vision response
(field `name`/`score` in the source). -/
structure ObjectAnn where
  name : String
  score : ℚ
deriving DecidableEq

/-- One element of `GoogleVisionResponse.responses`.  The `webDetection`
field of the source interface is omitted: `combineResults` never reads it. -/
structure VisionItem where
  labelAnns : List LabelAnn
  objectAnns : List ObjectAnn
deriving DecidableEq

/-- The general label/object detector payload (`GoogleVisionResponse`). -/
structure GoogleVisionResponse where
  responses : List VisionItem
deriving DecidableEq

/-- One Roboflow prediction (`class`/`confidence`; the bounding-box fields
`x`,`y`,`width`,`height` are omitted: `combineResults` never reads them). -/
structure RoboPrediction where
  className : String
  confidence : ℚ
deriving DecidableEq

/-- The specialized detector payload (`RoboflowResponse`). -/
structure RoboflowResponse where
  predictions : List RoboPrediction
deriving DecidableEq

/-- The `plasticLabels` vocabulary of `combineResults`. -/
def plasticTerms : List String :=
  ["plastic", "bottle", "trash", "waste", "pollution", "debris",
   "garbage", "litter", "container", "bag", "packaging"]

/-- The `waterLabels` vocabulary of `combineResults`. -/
def waterTerms : List String :=
  ["ocean", "water", "sea", "wave", "beach", "coast", "marine"]

/-- `text.toLowerCase()` as a character list (ASCII lowering, as the source
vocabularies are ASCII). -/
def lowerChars (s : String) : List Char := s.data.map Char.toLower

/-- Prefix test on character lists (helper for the substring test). -/
def isPrefixList : List Char → List Char → Bool
  | [], _ => true
  | _ :: _, [] => false
  | a :: as, b :: bs => a == b && isPrefixList as bs

/-- `hay.includes(needle)` of JavaScript: some contiguous substring match. -/
def hasSub (needle : List Char) : List Char → Bool
  | [] => needle.isEmpty
  | c :: rest => isPrefixList needle (c :: rest) || hasSub needle rest

/-- `terms.some(term => text.toLowerCase().includes(term))`. -/
def textMatchesAny (terms : List String) (text : String) : Bool :=
  terms.any fun t => hasSub t.data (lowerChars text)

/-- `plasticLabelScore` of `combineResults`: confidences of label entries
matching the plastic vocabulary, plus those of matching object entries. -/
def plasticLabelScore (item : VisionItem) : ℚ :=
  ((item.labelAnns.filter fun l => textMatchesAny plasticTerms l.description).map
    fun l => l.score).sum +
  ((item.objectAnns.filter fun o => textMatchesAny plasticTerms o.name).map
    fun o => o.score).sum

/-- `waterLabelScore` of `combineResults`: label entries only. -/
def waterLabelScore (item : VisionItem) : ℚ :=
  ((item.labelAnns.filter fun l => textMatchesAny waterTerms l.description).map
    fun l => l.score).sum

/-- The `detectedObjects.push(...)` calls of the Google phase. -/
def googleDetectedObjects (item : VisionItem) : List String :=
  ((item.labelAnns.filter fun l => textMatchesAny plasticTerms l.description).map
    fun l => l.description ++ " (Google)") ++
  ((item.objectAnns.filter fun o => textMatchesAny plasticTerms o.name).map
    fun o => o.name ++ " (Google Object)")

/-- Google-phase contribution to `plasticScore`: `0.1` on the clean-water
branch, else `plasticLabelScore * 0.5`; `0` when the response is absent or
empty (`googleVision?.responses?.[0]` falsy). -/
def googleScoreOf : Option GoogleVisionResponse → ℚ
  | none => 0
  | some gv =>
    match gv.responses.head? with
    | none => 0
    | some item =>
      if 7/10 < waterLabelScore item ∧ plasticLabelScore item < 1/5 then 1/10
      else plasticLabelScore item * (1/2)

/-- Google-phase contribution to the detected-object list. -/
def googleObjectsOf : Option GoogleVisionResponse → List String
  | none => []
  | some gv =>
    match gv.responses.head? with
    | none => []
    | some item => googleDetectedObjects item

/-- Average prediction confidence of the Roboflow phase (`reduce / length`). -/
def roboAverage (preds : List RoboPrediction) : ℚ :=
  ((preds.map fun p => p.confidence).sum) / (preds.length : ℚ)

/-- The `detectedObjects.push(...)` calls of the Roboflow phase;
`(confidence*100).toFixed(0)` is rendered by rounding to an integer. -/
def roboObjectsOf (preds : List RoboPrediction) : List String :=
  preds.map fun p =>
    p.className ++ " (Roboflow " ++ toString (round (p.confidence * 100)) ++ "%)"

/-- `[...new Set(xs)]`: duplicates removed, first occurrences kept in order. -/
def dedupAux (seen : List String) : List String → List String
  | [] => []
  | x :: xs => if x ∈ seen then dedupAux seen xs else x :: dedupAux (x :: seen) xs

/-- Deduplication applied to `detectedObjects` before returning. -/
def dedupList (xs : List String) : List String := dedupAux [] xs

/-- The fusion-mode severity thresholds of `combineResults`:
`< 0.2` low, `< 0.5` medium, otherwise high. -/
def fusionSeverity (s : ℚ) : Severity :=
  if s < 1/5 then .low else if s < 1/2 then .medium else .high

/-- `AdvancedPlasticDetector.combineResults`; `u` stands for the
`Math.random()` draw of the both-detectors-failed fallback. -/
def combineResults (googleVision : Option GoogleVisionResponse)
    (roboflow : Option RoboflowResponse) (u : ℚ) : DetectionResult :=
  let googleScore : ℚ := googleScoreOf googleVision
  let gObjects : List String := googleObjectsOf googleVision
  let hasRobo : Bool :=
    match roboflow with
    | none => false
    | some rr => !rr.predictions.isEmpty
  let roboScore : ℚ :=
    match roboflow with
    | none => 0
    | some rr => if rr.predictions.isEmpty then 0 else roboAverage rr.predictions
  let rObjects : List String :=
    match roboflow with
    | none => []
    | some rr => if rr.predictions.isEmpty then [] else roboObjectsOf rr.predictions
  let preScore : ℚ := googleScore + (if hasRobo then roboScore * (1/2) else 0)
  -- `confidence = Math.max(confidence, roboflowScore)`; dead in the source:
  -- it is overwritten on every path below, and kept here for fidelity.
  let _confidence0 : ℚ := if hasRobo then max (1/2) roboScore else 1/2
  let bothFailed : Bool := googleVision.isNone && roboflow.isNone
  let plasticScore : ℚ := if bothFailed then 3/10 + u * (3/10) else preScore
  let objects : List String :=
    if bothFailed then ["Unable to connect to AI services"] else gObjects ++ rObjects
  let confidence : ℚ :=
    if bothFailed then 1/2 else min (19/20) (plasticScore + 3/10)
  let severity : Severity := fusionSeverity plasticScore
  { severity := severity, confidence := confidence,
    objects := dedupList objects, plasticScore := plasticScore }

/-! ## Auxiliary definitions for the claims -/

/-- Per-pixel indicator of primary bucket membership. -/
def catInd (p : Pixel) (c : ColorCat) : ℕ := if classifyPixel p = some c then 1 else 0

/-- Sum of the ten primary (mutually exclusive) bucket counts of a histogram,
`greenBlue` and `total` excluded. -/
def primaryTotal (c : Counts) : ℕ :=
  c.darkBlue + c.mediumBlue + c.lightBlue + c.brightBlue + c.white +
  c.gray + c.red + c.yellow + c.green + c.brown

/-- Detector confidences lie in the documented `[0,1]` range. -/
def scoresValid (g : Option GoogleVisionResponse) (r : Option RoboflowResponse) : Prop :=
  (∀ gv, g = some gv → ∀ item ∈ gv.responses,
    (∀ l ∈ item.labelAnns, 0 ≤ l.score) ∧ (∀ o ∈ item.objectAnns, 0 ≤ o.score)) ∧
  (∀ rr, r = some rr → ∀ p ∈ rr.predictions, 0 ≤ p.confidence)

/-- A Google response with three high-confidence plastic labels. -/
def gManyPlastic : GoogleVisionResponse :=
  ⟨[⟨[⟨"plastic", 9/10⟩, ⟨"bottle", 9/10⟩, ⟨"trash", 9/10⟩], []⟩]⟩

/-- A Google response with a single full-confidence plastic label. -/
def gHalfPlastic : GoogleVisionResponse := ⟨[⟨[⟨"plastic", 1⟩], []⟩]⟩

/-- The §8 scenario: label "plastic bottle" at 0.9 and water labels at 0.1. -/
def scenarioItem : VisionItem := ⟨[⟨"plastic bottle", 9/10⟩, ⟨"water", 1/10⟩], []⟩

/-- A Roboflow response with one prediction of confidence 0.8. -/
def rExample : RoboflowResponse := ⟨[⟨"trash", 4/5⟩]⟩

/-- Histogram, brightBlue proportion 0.1 (inside the (0.005, 0.2) band). -/
def cEx1 : Counts := ⟨0, 0, 0, 0, 0, 4000, 0, 0, 0, 0, 0, 40000⟩

/-- Same histogram with brightBlue proportion 0.2 (at the upper guard). -/
def cEx2 : Counts := ⟨0, 0, 0, 0, 0, 8000, 0, 0, 0, 0, 0, 40000⟩

/-- The uniform deep-blue 200×200 grid of the §8 scenario. -/
def deepBlueGrid : List Pixel := List.replicate 40000 ⟨20, 40, 90⟩

/-- An all-red grid (waterScore 0). -/
def redGrid : List Pixel := [⟨255, 0, 0⟩]

/-- A single pixel landing in `darkBlue` and also in the `greenBlue`
secondary flag. -/
def overlapGrid : List Pixel := [⟨20, 40, 60⟩]

/-- Histogram, brightBlue proportion 0.01 (inside the (0.005, 0.2) band,
below `cEx1`). -/
def cEx0 : Counts := ⟨0, 0, 0, 0, 0, 400, 0, 0, 0, 0, 0, 40000⟩

/-! ## Helper lemmas -/

theorem length_filter_replicate {α : Type} (n : ℕ) (a : α) (q : α → Bool) :
    ((List.replicate n a).filter q).length = if q a then n else 0 := by
  induction n with
  | zero => simp
  | succ k ih =>
    rw [List.replicate_succ, List.filter_cons]
    by_cases h : q a <;> simp [h] at ih ⊢

theorem classifySeverity_iff (s : ℚ) :
    (classifySeverity s = Severity.low ↔ s < 1/4) ∧
    (classifySeverity s = Severity.medium ↔ 1/4 ≤ s ∧ s < 3/5) ∧
    (classifySeverity s = Severity.high ↔ 3/5 ≤ s) := by
  unfold classifySeverity
  split_ifs with h1 h2
  · exact ⟨iff_of_true rfl h1,
      iff_of_false (fun h => nomatch h) (fun hc => absurd hc.1 (not_le.mpr h1)),
      iff_of_false (fun h => nomatch h) (fun hc => absurd hc (by linarith))⟩
  · exact ⟨iff_of_false (fun h => nomatch h) h1,
      iff_of_true rfl ⟨le_of_not_lt h1, h2⟩,
      iff_of_false (fun h => nomatch h) (fun hc => absurd h2 (not_lt.mpr hc))⟩
  · exact ⟨iff_of_false (fun h => nomatch h) h1,
      iff_of_false (fun h => nomatch h) (fun hc => h2 hc.2),
      iff_of_true rfl (le_of_not_lt h2)⟩

theorem fusionSeverity_iff (s : ℚ) :
    (fusionSeverity s = Severity.low ↔ s < 1/5) ∧
    (fusionSeverity s = Severity.medium ↔ 1/5 ≤ s ∧ s < 1/2) ∧
    (fusionSeverity s = Severity.high ↔ 1/2 ≤ s) := by
  unfold fusionSeverity
  split_ifs with h1 h2
  · exact ⟨iff_of_true rfl h1,
      iff_of_false (fun h => nomatch h) (fun hc => absurd hc.1 (not_le.mpr h1)),
      iff_of_false (fun h => nomatch h) (fun hc => absurd hc (by linarith))⟩
  · exact ⟨iff_of_false (fun h => nomatch h) h1,
      iff_of_true rfl ⟨le_of_not_lt h1, h2⟩,
      iff_of_false (fun h => nomatch h) (fun hc => absurd h2 (not_lt.mpr hc))⟩
  · exact ⟨iff_of_false (fun h => nomatch h) h1,
      iff_of_false (fun h => nomatch h) (fun hc => h2 hc.2),
      iff_of_true rfl (le_of_not_lt h2)⟩

theorem waterScore_nonneg (c : Counts) : 0 ≤ calculateWaterScore c := by
  simp only [calculateWaterScore]
  refine le_min (by norm_num) ?_
  positivity

theorem waterScore_le_one (c : Counts) : calculateWaterScore c ≤ 1 := by
  simp only [calculateWaterScore]
  exact min_le_left _ _

theorem indScore_nonneg (c : Counts) : 0 ≤ (detectPlasticIndicators c).score := by
  simp only [detectPlasticIndicators]
  refine le_min (by norm_num) ?_
  split_ifs <;> positivity

theorem indScore_le_one (c : Counts) : (detectPlasticIndicators c).score ≤ 1 := by
  simp only [detectPlasticIndicators]
  exact min_le_left _ _

theorem unnatScore_nonneg (c : Counts) : 0 ≤ (detectUnnaturalColors c).score := by
  simp only [detectUnnaturalColors]
  refine le_min (by norm_num) ?_
  split_ifs <;> positivity

theorem unnatScore_le_one (c : Counts) : (detectUnnaturalColors c).score ≤ 1 := by
  simp only [detectUnnaturalColors]
  exact min_le_left _ _

theorem analyzeImage_plasticScore (ps : List Pixel) (u : ℚ) :
    (analyzeImage ps u).plasticScore =
      max 0 (min 1
        ((if 3/5 < calculateWaterScore (analyzeColorDistribution ps) then (1:ℚ)/10 else 3/10) +
         (detectPlasticIndicators (analyzeColorDistribution ps)).score * (2/5) +
         (detectUnnaturalColors (analyzeColorDistribution ps)).score * (3/10))) := rfl

theorem analyzeImage_severity (ps : List Pixel) (u : ℚ) :
    (analyzeImage ps u).severity = classifySeverity ((analyzeImage ps u).plasticScore) := rfl

theorem combineResults_severity (g : Option GoogleVisionResponse)
    (r : Option RoboflowResponse) (u : ℚ) :
    (combineResults g r u).severity = fusionSeverity ((combineResults g r u).plasticScore) := rfl

theorem combineResults_ps_fallback (u : ℚ) :
    (combineResults none none u).plasticScore = 3/10 + u * (3/10) := rfl

theorem combineResults_ps_googleOnly (gv : GoogleVisionResponse) (u : ℚ) :
    (combineResults (some gv) none u).plasticScore = googleScoreOf (some gv) := by
  simp [combineResults]

theorem combineResults_ps_robo (g : Option GoogleVisionResponse)
    (rr : RoboflowResponse) (u : ℚ) :
    (combineResults g (some rr) u).plasticScore =
      googleScoreOf g +
        (if rr.predictions.isEmpty then 0 else roboAverage rr.predictions * (1/2)) := by
  cases he : rr.predictions.isEmpty <;> simp [combineResults, he]

theorem plasticLabelScore_nonneg (item : VisionItem)
    (hl : ∀ l ∈ item.labelAnns, 0 ≤ l.score)
    (ho : ∀ o ∈ item.objectAnns, 0 ≤ o.score) :
    0 ≤ plasticLabelScore item := by
  unfold plasticLabelScore
  have h1 : 0 ≤ ((item.labelAnns.filter fun l =>
      textMatchesAny plasticTerms l.description).map fun l => l.score).sum := by
    apply List.sum_nonneg
    intro x hx
    simp only [List.mem_map, List.mem_filter] at hx
    obtain ⟨l, ⟨hm, _⟩, rfl⟩ := hx
    exact hl l hm
  have h2 : 0 ≤ ((item.objectAnns.filter fun o =>
      textMatchesAny plasticTerms o.name).map fun o => o.score).sum := by
    apply List.sum_nonneg
    intro x hx
    simp only [List.mem_map, List.mem_filter] at hx
    obtain ⟨o, ⟨hm, _⟩, rfl⟩ := hx
    exact ho o hm
  linarith

theorem googleScoreOf_nonneg (g : Option GoogleVisionResponse)
    (hg : ∀ gv, g = some gv → ∀ item ∈ gv.responses,
      (∀ l ∈ item.labelAnns, 0 ≤ l.score) ∧ (∀ o ∈ item.objectAnns, 0 ≤ o.score)) :
    0 ≤ googleScoreOf g := by
  cases g with
  | none => simp [googleScoreOf]
  | some gv =>
    cases hh : gv.responses with
    | nil => simp [googleScoreOf, hh]
    | cons a t =>
      have hmem : a ∈ gv.responses := by
        rw [hh]; exact List.mem_cons_self a t
      obtain ⟨hl, ho⟩ := hg gv rfl a hmem
      have hpl := plasticLabelScore_nonneg a hl ho
      simp only [googleScoreOf, hh, List.head?]
      split_ifs
      · norm_num
      · linarith

theorem roboAverage_nonneg (preds : List RoboPrediction)
    (h : ∀ p ∈ preds, 0 ≤ p.confidence) : 0 ≤ roboAverage preds := by
  unfold roboAverage
  apply div_nonneg
  · apply List.sum_nonneg
    intro x hx
    simp only [List.mem_map] at hx
    obtain ⟨p, hm, rfl⟩ := hx
    exact h p hm
  · positivity

theorem bandContribution_mono {r1 r2 : ℚ} (hle : r1 ≤ r2) (hub : r2 < 1/5) :
    (if 1/200 < r1 ∧ r1 < 1/5 then r1 * 3 else 0) ≤
    (if 1/200 < r2 ∧ r2 < 1/5 then r2 * 3 else 0) := by
  by_cases h1 : 1/200 < r1
  · rw [if_pos ⟨h1, lt_of_le_of_lt hle hub⟩, if_pos ⟨lt_of_lt_of_le h1 hle, hub⟩]
    linarith
  · rw [if_neg (fun hc => h1 hc.1)]
    by_cases h2 : 1/200 < r2
    · rw [if_pos ⟨h2, hub⟩]; linarith
    · rw [if_neg (fun hc => h2 hc.1)]

theorem catInd_sum_le_one (p : Pixel) :
    catInd p .darkBlue + catInd p .mediumBlue + catInd p .lightBlue + catInd p .brightBlue +
    catInd p .white + catInd p .gray + catInd p .red + catInd p .yellow + catInd p .green +
    catInd p .brown ≤ 1 := by
  unfold catInd
  cases h : classifyPixel p with
  | none => simp [h]
  | some c => cases c <;> simp [h]

theorem catCount_cons (p : Pixel) (ps : List Pixel) (c : ColorCat) :
    catCount (p :: ps) c = catInd p c + catCount ps c := by
  by_cases h : classifyPixel p = some c <;>
    simp [catCount, catInd, List.filter_cons, h, Nat.add_comm]

theorem catCount_replicate (n : ℕ) (p : Pixel) (c : ColorCat) :
    catCount (List.replicate n p) c = if classifyPixel p = some c then n else 0 := by
  rw [catCount, length_filter_replicate]
  by_cases h : classifyPixel p = some c <;> simp [h]

theorem counts_deepBlue :
    analyzeColorDistribution deepBlueGrid =
      ⟨0, 0, 40000, 40000, 0, 0, 0, 0, 0, 0, 0, 40000⟩ := by
  unfold deepBlueGrid analyzeColorDistribution
  simp only [catCount_replicate, length_filter_replicate, List.length_replicate]
  decide

/-! ## The claims -/

/-- Claim C1, amended.  In pixel-heuristic mode every score is clamped:
`waterScore`, `plasticIndicatorScore`, `unnaturalColorScore` lie in `[0,1]`
for every histogram, and the returned `plasticScore` lies in `[0,1]` for
every grid.  In external-fusion mode the returned `plasticScore` is only
bounded below by `0` (given detector confidences in `[0,1]`): it is not
clamped above, and many high-confidence plastic labels push it beyond `1`
(see the counterexample). -/
theorem claim1_score_range :
    (∀ c : Counts,
      0 ≤ calculateWaterScore c ∧ calculateWaterScore c ≤ 1 ∧
      0 ≤ (detectPlasticIndicators c).score ∧ (detectPlasticIndicators c).score ≤ 1 ∧
      0 ≤ (detectUnnaturalColors c).score ∧ (detectUnnaturalColors c).score ≤ 1) ∧
    (∀ (ps : List Pixel) (u : ℚ),
      0 ≤ (analyzeImage ps u).plasticScore ∧ (analyzeImage ps u).plasticScore ≤ 1) ∧
    (∀ (g : Option GoogleVisionResponse) (r : Option RoboflowResponse) (u : ℚ),
      scoresValid g r → 0 ≤ u → 0 ≤ (combineResults g r u).plasticScore) := by
  refine ⟨?_, ?_, ?_⟩
  · intro c
    exact ⟨waterScore_nonneg c, waterScore_le_one c, indScore_nonneg c,
      indScore_le_one c, unnatScore_nonneg c, unnatScore_le_one c⟩
  · intro ps u
    rw [analyzeImage_plasticScore]
    constructor
    · exact le_max_left 0 _
    · exact max_le (by norm_num) (min_le_left 1 _)
  · intro g r u hv hu
    obtain ⟨hg, hr⟩ := hv
    have hG := googleScoreOf_nonneg g hg
    cases r with
    | none =>
      cases g with
      | none =>
        rw [combineResults_ps_fallback]
        linarith
      | some gv =>
        rw [combineResults_ps_googleOnly]
        exact hG
    | some rr =>
      rw [combineResults_ps_robo]
      have hRA : 0 ≤ (if rr.predictions.isEmpty then 0
          else roboAverage rr.predictions * (1/2)) := by
        split_ifs with he
        · exact le_refl 0
        · have := roboAverage_nonneg rr.predictions (hr rr rfl)
          linarith
      linarith

/-- Witness for claim C1 at a concrete fusion input. -/
theorem claim1_witness : 0 ≤ (combineResults none none 0).plasticScore :=
  claim1_score_range.2.2 none none 0
    ⟨(fun _ h => nomatch h), (fun _ h => nomatch h)⟩ (le_refl 0)

/-- Counterexample to claim C1 as stated: three plastic labels with score
0.9 drive the fusion-mode `plasticScore` to 1.35, above the claimed `[0,1]`
range. -/
theorem claim1_counterexample :
    (combineResults (some gManyPlastic) none 0).plasticScore = 27/20 ∧
    1 < (combineResults (some gManyPlastic) none 0).plasticScore := by
  have h1 : textMatchesAny plasticTerms "plastic" = true := by decide
  have h2 : textMatchesAny plasticTerms "bottle" = true := by decide
  have h3 : textMatchesAny plasticTerms "trash" = true := by decide
  have hw1 : textMatchesAny waterTerms "plastic" = false := by decide
  have hw2 : textMatchesAny waterTerms "bottle" = false := by decide
  have hw3 : textMatchesAny waterTerms "trash" = false := by decide
  have hp : plasticLabelScore ⟨[⟨"plastic", 9/10⟩, ⟨"bottle", 9/10⟩, ⟨"trash", 9/10⟩], []⟩
      = 27/10 := by
    simp [plasticLabelScore, List.filter, h1, h2, h3]
    norm_num
  have hwv : waterLabelScore ⟨[⟨"plastic", 9/10⟩, ⟨"bottle", 9/10⟩, ⟨"trash", 9/10⟩], []⟩
      = 0 := by
    simp [waterLabelScore, List.filter, hw1, hw2, hw3]
  have hs : (combineResults (some gManyPlastic) none 0).plasticScore = 27/20 := by
    rw [combineResults_ps_googleOnly]
    simp only [googleScoreOf, gManyPlastic, List.head?, hp, hwv]
    norm_num
  exact ⟨hs, by rw [hs]; norm_num⟩

/-- Claim C2, amended.  The two modes use different fixed thresholds.
Pixel-heuristic mode: `plasticScore < 0.25` is low, `[0.25, 0.6)` is medium
(so exactly 0.25 is medium), `≥ 0.6` is high (so exactly 0.6 is high).
External-fusion mode instead uses `< 0.2` low, `[0.2, 0.5)` medium,
`≥ 0.5` high. -/
theorem claim2_thresholds :
    (∀ (ps : List Pixel) (u : ℚ),
      ((analyzeImage ps u).severity = Severity.low ↔
        (analyzeImage ps u).plasticScore < 1/4) ∧
      ((analyzeImage ps u).severity = Severity.medium ↔
        1/4 ≤ (analyzeImage ps u).plasticScore ∧ (analyzeImage ps u).plasticScore < 3/5) ∧
      ((analyzeImage ps u).severity = Severity.high ↔
        3/5 ≤ (analyzeImage ps u).plasticScore)) ∧
    (∀ (g : Option GoogleVisionResponse) (r : Option RoboflowResponse) (u : ℚ),
      ((combineResults g r u).severity = Severity.low ↔
        (combineResults g r u).plasticScore < 1/5) ∧
      ((combineResults g r u).severity = Severity.medium ↔
        1/5 ≤ (combineResults g r u).plasticScore ∧ (combineResults g r u).plasticScore < 1/2) ∧
      ((combineResults g r u).severity = Severity.high ↔
        1/2 ≤ (combineResults g r u).plasticScore)) := by
  constructor
  · intro ps u
    rw [analyzeImage_severity]
    exact classifySeverity_iff _
  · intro g r u
    rw [combineResults_severity]
    exact fusionSeverity_iff _

/-- Counterexample to claim C2 as stated: a fusion-mode score of exactly
0.5 lies in the claimed medium band `[0.25, 0.6)` yet is classified high. -/
theorem claim2_counterexample :
    (combineResults (some gHalfPlastic) none 0).plasticScore = 1/2 ∧
    (combineResults (some gHalfPlastic) none 0).severity = Severity.high := by
  have h1 : textMatchesAny plasticTerms "plastic" = true := by decide
  have hw1 : textMatchesAny waterTerms "plastic" = false := by decide
  have hp : plasticLabelScore ⟨[⟨"plastic", 1⟩], []⟩ = 1 := by
    simp [plasticLabelScore, List.filter, h1]
  have hwv : waterLabelScore ⟨[⟨"plastic", 1⟩], []⟩ = 0 := by
    simp [waterLabelScore, List.filter, hw1]
  have hs : (combineResults (some gHalfPlastic) none 0).plasticScore = 1/2 := by
    rw [combineResults_ps_googleOnly]
    simp only [googleScoreOf, gHalfPlastic, List.head?, hp, hwv]
    norm_num
  refine ⟨hs, ?_⟩
  rw [combineResults_severity, hs]
  unfold fusionSeverity
  norm_num

/-- Claim C3, amended.  When both detectors are unavailable the fusion
engine returns (it never raises in the embedding, being a total function)
the degraded verdict: `confidence` exactly 0.5, `plasticScore` in the band
`[0.3, 0.6]`, and `objects` equal to the single-element list
`["Unable to connect to AI services"]` — the source string, not the
`"unable to reach external detectors"` wording of the claim. -/
theorem claim3_fallback (u : ℚ) (h0 : 0 ≤ u) (h1 : u < 1) :
    (combineResults none none u).objects = ["Unable to connect to AI services"] ∧
    (combineResults none none u).confidence = 1/2 ∧
    3/10 ≤ (combineResults none none u).plasticScore ∧
    (combineResults none none u).plasticScore ≤ 3/5 := by
  refine ⟨rfl, rfl, ?_, ?_⟩ <;> rw [combineResults_ps_fallback] <;> linarith

/-- Witness for claim C3 at the random draw 0. -/
theorem claim3_witness :
    (combineResults none none 0).objects = ["Unable to connect to AI services"] ∧
    (combineResults none none 0).confidence = 1/2 ∧
    3/10 ≤ (combineResults none none 0).plasticScore ∧
    (combineResults none none 0).plasticScore ≤ 3/5 :=
  claim3_fallback 0 (le_refl 0) (by norm_num)

/-- Counterexample to claim C3 as stated: the fallback object list carries
the string "Unable to connect to AI services", not the claimed
"unable to reach external detectors". -/
theorem claim3_counterexample :
    (combineResults none none 0).objects ≠ ["unable to reach external detectors"] ∧
    (combineResults none none 0).objects = ["Unable to connect to AI services"] := by
  constructor
  · decide
  · rfl

/-- Claim C4, amended.  Increasing the bright-water-anomaly proportion while
holding the white, red, yellow counts and the total fixed never decreases
`plasticIndicatorScore`, provided the larger proportion stays strictly below
the 0.2 upper guard.  (Crossing 0.2 zeroes the bottle contribution, so the
claim fails without this proviso — see the counterexample.) -/
theorem claim4_monotone (c1 c2 : Counts)
    (hw : c1.white = c2.white) (hr : c1.red = c2.red) (hy : c1.yellow = c2.yellow)
    (ht : c1.total = c2.total)
    (hlt : (c1.brightBlue : ℚ) / c1.total < (c2.brightBlue : ℚ) / c2.total)
    (hub : (c2.brightBlue : ℚ) / c2.total < 1/5) :
    (detectPlasticIndicators c1).score ≤ (detectPlasticIndicators c2).score := by
  rw [ht] at hlt
  simp only [detectPlasticIndicators, hw, hr, hy, ht]
  apply min_le_min le_rfl
  have h2 := bandContribution_mono (le_of_lt hlt) hub
  linarith

/-- Witness for claim C4: raising the brightBlue proportion from 0.01 to
0.1 inside the band does not decrease the score. -/
theorem claim4_witness :
    (detectPlasticIndicators cEx0).score ≤ (detectPlasticIndicators cEx1).score :=
  claim4_monotone cEx0 cEx1 rfl rfl rfl rfl
    (by norm_num [cEx0, cEx1]) (by norm_num [cEx1])

/-- Counterexample to claim C4 as stated: raising the brightBlue proportion
from 0.1 to 0.2 (all other counts and the total unchanged) strictly
decreases `plasticIndicatorScore` from 0.3 to 0, because 0.2 is outside
the open guard band (0.005, 0.2). -/
theorem claim4_counterexample :
    (cEx1.brightBlue : ℚ) / cEx1.total < (cEx2.brightBlue : ℚ) / cEx2.total ∧
    cEx1.white = cEx2.white ∧ cEx1.red = cEx2.red ∧ cEx1.yellow = cEx2.yellow ∧
    cEx1.darkBlue = cEx2.darkBlue ∧ cEx1.mediumBlue = cEx2.mediumBlue ∧
    cEx1.lightBlue = cEx2.lightBlue ∧ cEx1.greenBlue = cEx2.greenBlue ∧
    cEx1.green = cEx2.green ∧ cEx1.gray = cEx2.gray ∧ cEx1.brown = cEx2.brown ∧
    cEx1.total = cEx2.total ∧
    (detectPlasticIndicators cEx2).score < (detectPlasticIndicators cEx1).score := by
  refine ⟨by norm_num [cEx1, cEx2], rfl, rfl, rfl, rfl, rfl, rfl, rfl, rfl, rfl, rfl, rfl, ?_⟩
  norm_num [detectPlasticIndicators, cEx1, cEx2, min_def]

/-- Claim C5, amended.  All counts are naturals (hence non-negative); the
ten primary categories are mutually exclusive per pixel, so their counts
sum to at most `total`, and the `greenBlue` count alone is at most `total`.
The green-tinted-water flag is a secondary bucket that can coincide with a
primary water bucket, so the claimed bound on the sum of all eleven
category counts fails — see the counterexample. -/
theorem claim5_partition (ps : List Pixel) :
    primaryTotal (analyzeColorDistribution ps) ≤ (analyzeColorDistribution ps).total ∧
    (analyzeColorDistribution ps).greenBlue ≤ (analyzeColorDistribution ps).total := by
  constructor
  · simp only [analyzeColorDistribution, primaryTotal]
    induction ps with
    | nil => simp [catCount]
    | cons p t ih =>
      rw [catCount_cons, catCount_cons, catCount_cons, catCount_cons, catCount_cons,
        catCount_cons, catCount_cons, catCount_cons, catCount_cons, catCount_cons,
        List.length_cons]
      have hb := catInd_sum_le_one p
      omega
  · simp only [analyzeColorDistribution]
    exact List.length_filter_le _ _

/-- Counterexample to claim C5 as stated: the single pixel (20,40,60) falls
in `darkBlue` and in the `greenBlue` secondary flag, so the sum of all
eleven category counts is 2 while the total is 1. -/
theorem claim5_counterexample :
    (analyzeColorDistribution overlapGrid).darkBlue +
    (analyzeColorDistribution overlapGrid).mediumBlue +
    (analyzeColorDistribution overlapGrid).lightBlue +
    (analyzeColorDistribution overlapGrid).greenBlue +
    (analyzeColorDistribution overlapGrid).white +
    (analyzeColorDistribution overlapGrid).brightBlue +
    (analyzeColorDistribution overlapGrid).red +
    (analyzeColorDistribution overlapGrid).yellow +
    (analyzeColorDistribution overlapGrid).green +
    (analyzeColorDistribution overlapGrid).gray +
    (analyzeColorDistribution overlapGrid).brown = 2 ∧
    (analyzeColorDistribution overlapGrid).total = 1 := by
  decide

/-- Claim C6, confirmed.  The Google phase sums matching label/object
confidences into `labelPlasticScore` and matching label confidences into
`labelWaterScore`; it contributes exactly 0.1 when `labelWaterScore > 0.7`
and `labelPlasticScore < 0.2`, and `0.5·labelPlasticScore` otherwise.  On
the scenario input (label "plastic bottle" at 0.9, water label at 0.1) the
contribution is 0.45. -/
theorem claim6_google_rule :
    (∀ (item : VisionItem) (u : ℚ),
      (combineResults (some ⟨[item]⟩) none u).plasticScore =
        if 7/10 < waterLabelScore item ∧ plasticLabelScore item < 1/5 then 1/10
        else plasticLabelScore item * (1/2)) ∧
    (plasticLabelScore scenarioItem = 9/10 ∧ waterLabelScore scenarioItem = 1/10 ∧
      (combineResults (some ⟨[scenarioItem]⟩) none 0).plasticScore = 9/20) := by
  have hrule : ∀ (item : VisionItem) (u : ℚ),
      (combineResults (some ⟨[item]⟩) none u).plasticScore =
        if 7/10 < waterLabelScore item ∧ plasticLabelScore item < 1/5 then 1/10
        else plasticLabelScore item * (1/2) := by
    intro item u
    rw [combineResults_ps_googleOnly]
    simp [googleScoreOf]
  refine ⟨hrule, ?_, ?_, ?_⟩
  · have h1 : textMatchesAny plasticTerms "plastic bottle" = true := by decide
    have h2 : textMatchesAny plasticTerms "water" = false := by decide
    simp [plasticLabelScore, scenarioItem, List.filter, h1, h2]
  · have h1 : textMatchesAny waterTerms "plastic bottle" = false := by decide
    have h2 : textMatchesAny waterTerms "water" = true := by decide
    simp [waterLabelScore, scenarioItem, List.filter, h1, h2]
  · have h1 : textMatchesAny plasticTerms "plastic bottle" = true := by decide
    have h2 : textMatchesAny plasticTerms "water" = false := by decide
    have h3 : textMatchesAny waterTerms "plastic bottle" = false := by decide
    have h4 : textMatchesAny waterTerms "water" = true := by decide
    have hp : plasticLabelScore scenarioItem = 9/10 := by
      simp [plasticLabelScore, scenarioItem, List.filter, h1, h2]
    have hw : waterLabelScore scenarioItem = 1/10 := by
      simp [waterLabelScore, scenarioItem, List.filter, h3, h4]
    rw [hrule]
    rw [hp, hw]
    norm_num

/-- Claim C7, confirmed.  When the specialized detector returns a non-empty
prediction list its contribution is half the average prediction confidence,
and whenever at least one detector responded the returned confidence is
`min(0.95, plasticScore + 0.3)` (the earlier `max(confidence, average)`
assignment is overwritten on this path). -/
theorem claim7_fusion_formulas :
    (∀ (g : Option GoogleVisionResponse) (rr : RoboflowResponse) (u : ℚ),
      rr.predictions ≠ [] →
      (combineResults g (some rr) u).plasticScore =
        googleScoreOf g + roboAverage rr.predictions * (1/2)) ∧
    (∀ (g : Option GoogleVisionResponse) (r : Option RoboflowResponse) (u : ℚ),
      g ≠ none ∨ r ≠ none →
      (combineResults g r u).confidence =
        min (19/20) ((combineResults g r u).plasticScore + 3/10)) := by
  constructor
  · intro g rr u hne
    have he : rr.predictions.isEmpty = false := by
      cases hp : rr.predictions with
      | nil => exact absurd hp hne
      | cons a t => rfl
    rw [combineResults_ps_robo, if_neg (by simp [he])]
  · intro g r u hor
    cases g with
    | some gv => simp [combineResults]
    | none =>
      cases r with
      | some rr => simp [combineResults]
      | none =>
        cases hor with
        | inl h => exact absurd rfl h
        | inr h => exact absurd rfl h

/-- Witness for claim C7 at a concrete one-prediction Roboflow response. -/
theorem claim7_witness :
    (combineResults none (some rExample) 0).plasticScore =
      googleScoreOf none + roboAverage rExample.predictions * (1/2) ∧
    (combineResults none (some rExample) 0).confidence =
      min (19/20) ((combineResults none (some rExample) 0).plasticScore + 3/10) :=
  ⟨claim7_fusion_formulas.1 none rExample 0 (by simp [rExample]),
   claim7_fusion_formulas.2 none (some rExample) 0 (Or.inr (by simp))⟩

/-- Claim C8, confirmed.  The pixel-heuristic scoring core is a function of
the grid alone: the random jitter draw `u` influences only the confidence,
so two runs on the same grid agree on `plasticScore`, `severity` and
`objects`. -/
theorem claim8_determinism (ps : List Pixel) (u1 u2 : ℚ) :
    (analyzeImage ps u1).plasticScore = (analyzeImage ps u2).plasticScore ∧
    (analyzeImage ps u1).severity = (analyzeImage ps u2).severity ∧
    (analyzeImage ps u1).objects = (analyzeImage ps u2).objects :=
  ⟨rfl, rfl, rfl⟩

/-- Claim C9, confirmed.  On the uniform deep-blue grid of 40,000 samples
of (20,40,90) the waterScore exceeds 0.6, the plasticScore equals the 0.1
base component, and the severity is low. -/
theorem claim9_deep_blue :
    3/5 < calculateWaterScore (analyzeColorDistribution deepBlueGrid) ∧
    (analyzeImage deepBlueGrid 0).plasticScore = 1/10 ∧
    (analyzeImage deepBlueGrid 0).severity = Severity.low := by
  have hw1 : calculateWaterScore (analyzeColorDistribution deepBlueGrid) = 1 := by
    rw [counts_deepBlue]
    norm_num [calculateWaterScore, min_def]
  have hi : (detectPlasticIndicators (analyzeColorDistribution deepBlueGrid)).score = 0 := by
    rw [counts_deepBlue]
    norm_num [detectPlasticIndicators, min_def]
  have hu : (detectUnnaturalColors (analyzeColorDistribution deepBlueGrid)).score = 0 := by
    rw [counts_deepBlue]
    norm_num [detectUnnaturalColors, min_def]
  have hps : (analyzeImage deepBlueGrid 0).plasticScore = 1/10 := by
    rw [analyzeImage_plasticScore, hw1, hi, hu]
    norm_num [min_def, max_def]
  refine ⟨by rw [hw1]; norm_num, hps, ?_⟩
  rw [analyzeImage_severity, hps]
  unfold classifySeverity
  norm_num

/-- Claim C10, confirmed.  In pixel-heuristic mode the returned plasticScore
is at least 0.1 for every grid (the lower clamp at 0 is never binding), and
any grid whose waterScore is at most 0.6 yields a plasticScore of at least
0.3, hence never severity low. -/
theorem claim10_lower_bounds (ps : List Pixel) (u : ℚ) :
    1/10 ≤ (analyzeImage ps u).plasticScore ∧
    (calculateWaterScore (analyzeColorDistribution ps) ≤ 3/5 →
      3/10 ≤ (analyzeImage ps u).plasticScore ∧
      (analyzeImage ps u).severity ≠ Severity.low) := by
  have hi := indScore_nonneg (analyzeColorDistribution ps)
  have hn := unnatScore_nonneg (analyzeColorDistribution ps)
  have hi' : 0 ≤ (detectPlasticIndicators (analyzeColorDistribution ps)).score * (2/5) :=
    mul_nonneg hi (by norm_num)
  have hn' : 0 ≤ (detectUnnaturalColors (analyzeColorDistribution ps)).score * (3/10) :=
    mul_nonneg hn (by norm_num)
  constructor
  · rw [analyzeImage_plasticScore]
    have hbase : (1:ℚ)/10 ≤
        (if 3/5 < calculateWaterScore (analyzeColorDistribution ps)
          then (1:ℚ)/10 else 3/10) := by
      split_ifs <;> norm_num
    refine le_trans (le_min (by norm_num) (by linarith)) (le_max_right 0 _)
  · intro hw
    have hbase : (if 3/5 < calculateWaterScore (analyzeColorDistribution ps)
        then (1:ℚ)/10 else 3/10) = 3/10 := if_neg (not_lt.mpr hw)
    have h3 : 3/10 ≤ (analyzeImage ps u).plasticScore := by
      rw [analyzeImage_plasticScore, hbase]
      refine le_trans (le_min (by norm_num) (by linarith)) (le_max_right 0 _)
    refine ⟨h3, ?_⟩
    rw [analyzeImage_severity]
    unfold classifySeverity
    rw [if_neg (by linarith)]
    split_ifs <;> exact fun h => nomatch h

/-- Witness for claim C10 on the all-red grid, whose waterScore is 0. -/
theorem claim10_witness :
    3/10 ≤ (analyzeImage redGrid 0).plasticScore ∧
    (analyzeImage redGrid 0).severity ≠ Severity.low :=
  (claim10_lower_bounds redGrid 0).2 (by
    have hcounts : analyzeColorDistribution redGrid =
        ⟨0, 0, 0, 0, 0, 0, 1, 0, 0, 0, 0, 1⟩ := by decide
    rw [hcounts]
    norm_num [calculateWaterScore, min_def])

end OceanSentinel

